import Mathlib

/-!
Verification development for the streaming playback / view-aggregation /
report-retrieval subsystem of the FlowDrishti dashboard (the React
`Dashboard` component and its tab subcomponents).

The JavaScript source is shallowly embedded: numeric telemetry values are
modelled as rationals, the per-second tick of the realtime simulation and
dataset uploads become events of an explicit state machine, and browser
side effects (alerts, file saves, network requests) become explicit action
lists returned by the embedded functions.
-/

namespace FlowDrishti

/-- One equipment record of the active dataset (`equipment_data` items):
`name, type, flowrate, pressure, temperature, health_score`. -/
structure EquipmentRecord where
  name : String
  etype : String
  flowrate : ℚ
  pressure : ℚ
  temperature : ℚ
  health_score : ℚ
deriving DecidableEq, Inhabited

/-- The active dataset object (`uploadData` prop): aggregated fields arrive
precomputed from the server.  Optional fields model JSON fields that may be
absent (`undefined`). -/
structure UploadData where
  id : Nat
  equipment_data : List EquipmentRecord
  total_equipment : Nat
  avg_flowrate : Option ℚ
  avg_pressure : Option ℚ
  avg_health_score : Option ℚ
  equipment_type_distribution : List (String × Nat)
deriving DecidableEq, Inhabited

/-- One point of the realtime stream (`newPoint` in the simulation effect):
`time, flow, pressure, temp` and, for replayed records, the source `name`. -/
structure StreamPoint where
  time : String
  flow : ℚ
  pressure : ℚ
  temp : ℚ
  name : Option String
deriving DecidableEq, Inhabited

/-- Append a point to the stream buffer, dropping the oldest point when the
length would exceed 20: `const newData = [...prev, newPoint]; if
(newData.length > 20) newData.shift();` (lines 71-73 of the Dashboard). -/
def pushPoint (prev : List StreamPoint) (p : StreamPoint) : List StreamPoint :=
  let newData := prev ++ [p]
  if newData.length > 20 then newData.tail else newData

/-- Point replayed from an uploaded equipment record (lines 53-59). -/
def mkRealPoint (t : String) (e : EquipmentRecord) : StreamPoint :=
  { time := t, flow := e.flowrate, pressure := e.pressure,
    temp := e.temperature, name := some e.name }

/-- Fallback random point (lines 63-68); `r1 r2 r3` stand for the three
`Math.random()` draws in `[0,1)`. -/
def mkFallbackPoint (t : String) (r1 r2 r3 : ℚ) : StreamPoint :=
  { time := t, flow := 45 + r1 * 10, pressure := 8 + r2 * 4,
    temp := 58 + r3 * 5, name := none }

/-- The guard `uploadData && uploadData.equipment_data &&
uploadData.equipment_data.length > 0` (line 50). -/
def hasRealData (u : Option UploadData) : Bool :=
  match u with
  | some d => decide (0 < d.equipment_data.length)
  | none => false

/-- The Dashboard state touched by the simulation: the active dataset, the
stream buffer `realtimeData` and the `playbackIndex`. -/
structure DashState where
  uploadData : Option UploadData
  realtimeData : List StreamPoint
  playbackIndex : Nat
deriving DecidableEq, Inhabited

/-- Events driving the simulation state: a 1-second tick (carrying the
wall-clock label and the random draws the tick would use for the fallback
point) or the arrival of a new upload. -/
inductive Event where
  | tick (t : String) (r1 r2 r3 : ℚ)
  | upload (d : UploadData)
deriving DecidableEq

/-- The point produced by one tick (lines 50-69): replay
`equipment_data[playbackIndex % equipment_data.length]` when real data
exists, otherwise synthesize a random fallback point. -/
def tickPoint (s : DashState) (t : String) (r1 r2 r3 : ℚ) : StreamPoint :=
  match s.uploadData with
  | some d =>
    if 0 < d.equipment_data.length then
      mkRealPoint t (d.equipment_data.getD
        (s.playbackIndex % d.equipment_data.length) default)
    else mkFallbackPoint t r1 r2 r3
  | none => mkFallbackPoint t r1 r2 r3

/-- One step of the Dashboard simulation state machine.  A tick appends the
produced point to the buffer and advances `playbackIndex` exactly when a
real record was consumed (`setPlaybackIndex(idx => idx + 1)`, line 60); a
new upload replaces the dataset and synchronously resets the buffer and the
index (`setRealtimeData([]); setPlaybackIndex(0);`, lines 35-40). -/
def step (s : DashState) : Event → DashState
  | .tick t r1 r2 r3 =>
    { s with
      realtimeData := pushPoint s.realtimeData (tickPoint s t r1 r2 r3),
      playbackIndex :=
        if hasRealData s.uploadData then s.playbackIndex + 1
        else s.playbackIndex }
  | .upload d =>
    { uploadData := some d, realtimeData := [], playbackIndex := 0 }

/-- Run the state machine over a list of events. -/
def run (s : DashState) (es : List Event) : DashState :=
  es.foldl step s

/-- Whether an event is a tick. -/
def Event.isTick : Event → Bool
  | .tick _ _ _ _ => true
  | .upload _ => false

/-- The stream points emitted along a trace, in arrival order. -/
def emitted (s : DashState) : List Event → List StreamPoint
  | [] => []
  | .tick t r1 r2 r3 :: es =>
      tickPoint s t r1 r2 r3 :: emitted (step s (.tick t r1 r2 r3)) es
  | .upload d :: es => emitted (step s (.upload d)) es

/-- The most recent `n` elements of a list, in order. -/
def lastN (n : Nat) (l : List α) : List α :=
  l.drop (l.length - n)

/-- Ordering of equipment records used by the watchlist comparator
`(a, b) => a.health_score - b.health_score` (ascending). -/
def healthLe (a b : EquipmentRecord) : Prop :=
  a.health_score ≤ b.health_score

instance : DecidableRel healthLe :=
  fun a b => inferInstanceAs (Decidable (a.health_score ≤ b.health_score))

instance : IsTotal EquipmentRecord healthLe :=
  ⟨fun a b => le_total a.health_score b.health_score⟩

instance : IsTrans EquipmentRecord healthLe :=
  ⟨fun _ _ _ h1 h2 => le_trans h1 h2⟩

/-- The stable ascending sort performed by
`equipment_data.sort((a, b) => a.health_score - b.health_score)`.
ECMAScript `Array.prototype.sort` is specified stable; insertion sort is
the matching stable model. -/
def sortByHealth (l : List EquipmentRecord) : List EquipmentRecord :=
  List.insertionSort healthLe l

/-- Bar color of a watchlist entry (line 343): red when
`health_score < 50`, amber otherwise. -/
def watchColor (e : EquipmentRecord) : String :=
  if e.health_score < 50 then "rgba(239, 68, 68, 0.7)" else "rgba(245, 158, 11, 0.7)"

/-- The watchlist chart of the Overview tab (lines 330-343).  The source
calls `.sort(...)` three consecutive times on the same `equipment_data`
array — labels, data and colors each re-sort it — and JavaScript
`Array.prototype.sort` sorts **in place**, so the function also returns the
post-state of `equipment_data` after rendering. -/
def overviewWatchlist (equipment_data : List EquipmentRecord) :
    (List String × List ℚ × List String) × List EquipmentRecord :=
  let arr1 := sortByHealth equipment_data
  let labels := (arr1.take 5).map (fun e => e.name)
  let arr2 := sortByHealth arr1
  let data := (arr2.take 5).map (fun e => e.health_score)
  let arr3 := sortByHealth arr2
  let colors := (arr3.take 5).map watchColor
  ((labels, data, colors), arr3)

/-- Six-record dataset with health scores `[10, 90, 5, 50, 99, 30]`. -/
def demoRecords : List EquipmentRecord :=
  [⟨"P1", "Pump", 1, 1, 1, 10⟩, ⟨"P2", "Pump", 1, 1, 1, 90⟩,
   ⟨"P3", "Pump", 1, 1, 1, 5⟩, ⟨"P4", "Pump", 1, 1, 1, 50⟩,
   ⟨"P5", "Pump", 1, 1, 1, 99⟩, ⟨"P6", "Pump", 1, 1, 1, 30⟩]

/-- JSON value as produced by `JSON.parse` on a response text.  Arrays are
not modelled: no claim depends on them and the wire contract for inline
errors is the object shape `\x7b error: string \x7d`. -/
inductive Json where
  | null
  | bool (b : Bool)
  | num (q : ℚ)
  | str (s : String)
  | obj (fields : List (String × Json))

/-- JavaScript property access `j.key` on a parsed value: a field of an
object, `undefined` (`none`) otherwise. -/
def jsGet (j : Json) (key : String) : Option Json :=
  match j with
  | .obj fields => (fields.find? (fun kv => kv.1 == key)).map (fun kv => kv.2)
  | _ => none

/-- JavaScript truthiness of a parsed JSON value. -/
def jsTruthy : Json → Bool
  | .null => false
  | .bool b => b
  | .num q => decide (q ≠ 0)
  | .str s => decide (s ≠ "")
  | .obj _ => true

/-- JavaScript string conversion of a parsed JSON value, as used inside a
template literal. -/
def jsDisplay : Json → String
  | .null => "null"
  | .bool true => "true"
  | .bool false => "false"
  | .num q => toString q
  | .str s => s
  | .obj _ => "[object Object]"

/-- Observable outcomes of the report download handler. -/
inductive ReportAction where
  | alert (msg : String)
  | saveFile (filename : String)
deriving DecidableEq

/-- The download filename `Analysis_Report_#${id}.pdf` (lines 123 and 140). -/
def reportFilename (id : Nat) : String :=
  "Analysis_Report_#" ++ toString id ++ ".pdf"

/-- The alerted message body `errObj.error || "Generation failed on
server."` (line 117): the `error` field when truthy, otherwise the generic
fallback. -/
def reportErrMsg (errObj : Json) : String :=
  match jsGet errObj "error" with
  | some v => if jsTruthy v then jsDisplay v else "Generation failed on server."
  | none => "Generation failed on server."

/-- Response disambiguation of `handleDownloadReport` (lines 112-148):
when the declared content type is JSON or the payload is under 500 bytes,
the payload text is parsed as JSON (`parsed` is the `JSON.parse` result,
`none` when parsing throws); parse success alerts the error message and
saves nothing, parse failure falls back to the file save; otherwise the
payload is saved directly. -/
def classifyReport (id : Nat) (contentType : String) (size : Nat)
    (parsed : Option Json) : List ReportAction :=
  if contentType == "application/json" || decide (size < 500) then
    match parsed with
    | some errObj => [.alert ("Report Error: " ++ reportErrMsg errObj)]
    | none => [.saveFile (reportFilename id)]
  else [.saveFile (reportFilename id)]

/-- One summarized past dataset as served by the history endpoint.  The
server sends `uploaded_at` as a date string; the code only uses it through
`new Date(...)`, so it is modelled directly as the parsed epoch value. -/
structure HistoryEntry where
  id : Nat
  uploaded_at : Nat
  total_equipment : Nat
  avg_health_score : ℚ
  avg_flowrate : ℚ
  avg_pressure : ℚ
deriving DecidableEq, Inhabited

/-- Observable browser/network effects of the history handlers. -/
inductive UiAction where
  | confirmPrompt (msg : String)
  | deleteRequest (id : Nat)
  | historyRequest
  | alert (msg : String)
  | logError (msg : String)
deriving DecidableEq

/-- `fetchHistory` (lines 80-87): request the history list; on success
replace the stored list wholesale, on failure log and keep the previous
list.  `result` is the network outcome (`none` = request failed). -/
def fetchHistory (history : List HistoryEntry)
    (result : Option (List HistoryEntry)) :
    List HistoryEntry × List UiAction :=
  match result with
  | some res => (res, [.historyRequest])
  | none => (history, [.historyRequest, .logError "Failed to fetch history"])

/-- The confirmation prompt text of `handleDeleteDataset` (line 90). -/
def deleteConfirmMsg (id : Nat) : String :=
  "Are you sure you want to delete dataset #" ++ toString id ++
    "? This action cannot be undone."

/-- `handleDeleteDataset` (lines 89-100): ask for confirmation and stop if
declined; otherwise issue the delete and on success re-fetch the history,
on failure log and alert, keeping the stored list.  `confirmed` is the
`window.confirm` result, `deleteOk` whether `api.delete` succeeds,
`fetchResult` the outcome of the follow-up history fetch. -/
def handleDeleteDataset (id : Nat) (confirmed deleteOk : Bool)
    (fetchResult : Option (List HistoryEntry))
    (history : List HistoryEntry) :
    List HistoryEntry × List UiAction :=
  if !confirmed then (history, [.confirmPrompt (deleteConfirmMsg id)])
  else if deleteOk then
    let r := fetchHistory history fetchResult
    (r.1, .confirmPrompt (deleteConfirmMsg id) :: .deleteRequest id :: r.2)
  else
    (history, [.confirmPrompt (deleteConfirmMsg id), .deleteRequest id,
      .logError "Failed to delete dataset",
      .alert "Failed to delete dataset. Please try again."])

/-- Ordering of history entries used by the trend charts comparator
`(a, b) => new Date(a.uploaded_at) - new Date(b.uploaded_at)`. -/
def histLe (a b : HistoryEntry) : Prop :=
  a.uploaded_at ≤ b.uploaded_at

instance : DecidableRel histLe :=
  fun a b => inferInstanceAs (Decidable (a.uploaded_at ≤ b.uploaded_at))

instance : IsTotal HistoryEntry histLe :=
  ⟨fun a b => Nat.le_total a.uploaded_at b.uploaded_at⟩

instance : IsTrans HistoryEntry histLe :=
  ⟨fun _ _ _ h1 h2 => Nat.le_trans h1 h2⟩

/-- The ascending-by-date stable sort of `[...history].sort(...)`
(line 482). -/
def sortHistory (history : List HistoryEntry) : List HistoryEntry :=
  List.insertionSort histLe history

/-- What the ComparisonTab renders. -/
inductive ComparisonView where
  | emptyState (msg : String)
  | charts (labels : List String) (health flow pressure : List ℚ)
deriving DecidableEq

/-- `ComparisonTab` (lines 474-557): empty history renders the prompt
card; otherwise the copy `[...history]` is sorted ascending by upload date
and the labels plus the three aligned series are derived from the sorted
copy.  `dateLabel` abstracts `new Date(x).toLocaleDateString()` (date-only
rendering).  The untouched input list is returned as the post-state. -/
def comparisonTab (dateLabel : Nat → String) (history : List HistoryEntry) :
    ComparisonView × List HistoryEntry :=
  if history.length = 0 then
    (.emptyState "No history data available for comparison. Upload more datasets to see trends.",
      history)
  else
    let sortedHistory := sortHistory history
    (.charts (sortedHistory.map (fun h => dateLabel h.uploaded_at))
      (sortedHistory.map (fun h => h.avg_health_score))
      (sortedHistory.map (fun h => h.avg_flowrate))
      (sortedHistory.map (fun h => h.avg_pressure)), history)

/-- The four tab descriptors rendered by the Dashboard (lines 201-206). -/
def tabIds : List String :=
  ["overview", "analytics", "comparison", "history"]

/-- User events that invoke `setActiveTab`: clicking one of the four
rendered tab buttons (line 209) or the "View History" button of the
no-dataset prompt (line 173). -/
inductive TabEvent where
  | clickTab (i : Fin 4)
  | clickViewHistory

/-- Effect of a tab-selection event on `activeTab`. -/
def tabStep (_cur : String) : TabEvent → String
  | .clickTab i => tabIds.get (Fin.cast (by rfl) i)
  | .clickViewHistory => "history"

/-- `activeTab` after a sequence of user tab selections from the initial
state `'overview'` (line 23). -/
def tabRun (es : List TabEvent) : String :=
  es.foldl tabStep "overview"

/-- The guard of the realtime simulation effect (line 44):
`activeTab === 'realtime' && isSimulating`. -/
def simGuard (activeTab : String) (isSimulating : Bool) : Bool :=
  activeTab == "realtime" && isSimulating

/-- ECMAScript `toFixed(0)`: the nearest integer, ties toward the larger
value — the floor of `q + 1/2`, written on `num/den` with integer floor
division so that it evaluates by kernel reduction. -/
def jsToFixed0 (q : ℚ) : ℤ :=
  Int.fdiv (2 * q.num + q.den) (2 * q.den)

/-- The System Health stat card value (line 278):
`(avg_health_score || 85).toFixed(0) + '%'`.  `none` models an absent
field; `some 0` is falsy in JavaScript, so both fall back to 85. -/
def systemHealthValue (avg : Option ℚ) : String :=
  let shown : ℚ :=
    match avg with
    | none => 85
    | some q => if q = 0 then 85 else q
  toString (jsToFixed0 shown) ++ "%"

/-- The System Health card color (line 278):
`avg_health_score < 70 ? "red" : "emerald"`; when the field is absent the
raw comparison `undefined < 70` is false, giving emerald. -/
def systemHealthColor (avg : Option ℚ) : String :=
  match avg with
  | some q => if q < 70 then "red" else "emerald"
  | none => "emerald"

theorem lastN_of_length_le {n : Nat} {l : List α} (h : l.length ≤ n) :
    lastN n l = l := by
  simp [lastN, Nat.sub_eq_zero_of_le h]

theorem length_lastN (n : Nat) (l : List α) :
    (lastN n l).length = min n l.length := by
  simp [lastN, List.length_drop]
  omega

/-- `pushPoint` maintains the sliding-window shape of the buffer. -/
theorem pushPoint_lastN (done : List StreamPoint) (p : StreamPoint) :
    pushPoint (lastN 20 done) p = lastN 20 (done ++ [p]) := by
  unfold pushPoint lastN
  by_cases h : done.length < 20
  · rw [Nat.sub_eq_zero_of_le (le_of_lt h), List.drop_zero,
      if_neg (by simp; omega), Nat.sub_eq_zero_of_le (by simp; omega),
      List.drop_zero]
  · have hk : 1 ≤ (done.drop (done.length - 20)).length := by
      simp only [List.length_drop]; omega
    have hle : (done ++ [p]).length - 20 ≤ done.length := by
      simp only [List.length_append, List.length_cons, List.length_nil]
      omega
    rw [if_pos (by simp only [List.length_append, List.length_drop,
      List.length_cons, List.length_nil]; omega)]
    rw [← List.drop_one, List.drop_append_of_le_length hk, List.drop_drop,
      List.drop_append_of_le_length hle]
    congr 2
    simp only [List.length_append, List.length_cons, List.length_nil]
    omega

theorem length_pushPoint_le {buf : List StreamPoint}
    (h : buf.length ≤ 20) (p : StreamPoint) :
    (pushPoint buf p).length ≤ 20 := by
  unfold pushPoint
  by_cases h' : (buf ++ [p]).length > 20
  · rw [if_pos h']
    simp only [List.length_tail, List.length_append, List.length_cons,
      List.length_nil]
    omega
  · rw [if_neg h']
    omega

theorem length_step_le {s : DashState} (h : s.realtimeData.length ≤ 20)
    (e : Event) : (step s e).realtimeData.length ≤ 20 := by
  cases e with
  | tick t r1 r2 r3 => exact length_pushPoint_le h _
  | upload d => simp [step]

/-- Along a trace of ticks, the stream buffer is always the window of the
most recent 20 emitted points. -/
theorem run_ticks_lastN : ∀ (es : List Event) (s : DashState)
    (done : List StreamPoint), (∀ e ∈ es, e.isTick = true) →
    s.realtimeData = lastN 20 done →
    (run s es).realtimeData = lastN 20 (done ++ emitted s es)
  | [], s, done, _, hbuf => by simpa [run, emitted] using hbuf
  | .tick t r1 r2 r3 :: es, s, done, hticks, hbuf => by
    have hstep : (step s (.tick t r1 r2 r3)).realtimeData =
        lastN 20 (done ++ [tickPoint s t r1 r2 r3]) := by
      simp only [step]
      rw [hbuf]
      exact pushPoint_lastN done _
    have ih := run_ticks_lastN es (step s (.tick t r1 r2 r3))
      (done ++ [tickPoint s t r1 r2 r3])
      (fun e he => hticks e (List.mem_cons_of_mem _ he)) hstep
    simpa [run, emitted, List.append_assoc] using ih
  | .upload d :: es, s, done, hticks, _ => by
    have := hticks (.upload d) (List.mem_cons_self _ _)
    simp [Event.isTick] at this

theorem emitted_length_of_ticks : ∀ (es : List Event) (s : DashState),
    (∀ e ∈ es, e.isTick = true) → (emitted s es).length = es.length
  | [], _, _ => rfl
  | .tick t r1 r2 r3 :: es, s, hticks => by
    simp only [emitted, List.length_cons]
    rw [emitted_length_of_ticks es _
      (fun e he => hticks e (List.mem_cons_of_mem _ he))]
  | .upload d :: es, s, hticks => by
    have := hticks (.upload d) (List.mem_cons_self _ _)
    simp [Event.isTick] at this

/-- C1: for every sequence of ticks of the realtime simulation, the stream
buffer `realtimeData` has length at most 20 at all times — length-boundedness
is preserved by every step — and after the ticks its contents are exactly the
most recent `min 20 (number of ticks)` emitted samples in arrival order,
the oldest being evicted first when appending would exceed 20. -/
theorem stream_buffer_window (es : List Event) (s : DashState)
    (hticks : ∀ e ∈ es, e.isTick = true) (hempty : s.realtimeData = []) :
    (run s es).realtimeData = lastN 20 (emitted s es) ∧
    (run s es).realtimeData.length = min 20 es.length ∧
    (run s es).realtimeData.length ≤ 20 ∧
    (∀ (s' : DashState) (e : Event), s'.realtimeData.length ≤ 20 →
      (step s' e).realtimeData.length ≤ 20) := by
  have hwin := run_ticks_lastN es s [] hticks (by simp [hempty, lastN])
  simp only [List.nil_append] at hwin
  refine ⟨hwin, ?_, ?_, fun s' e h => length_step_le h e⟩
  · rw [hwin, length_lastN, emitted_length_of_ticks es s hticks]
  · rw [hwin, length_lastN]
    omega

/-- Closed instance of `stream_buffer_window` on a concrete two-tick trace. -/
theorem stream_buffer_window_witness :
    (∀ e ∈ [Event.tick "a" 0 0 0, Event.tick "b" 0 0 0], e.isTick = true) ∧
    ((run ⟨none, [], 0⟩ [Event.tick "a" 0 0 0, Event.tick "b" 0 0 0]).realtimeData =
      lastN 20 (emitted ⟨none, [], 0⟩ [Event.tick "a" 0 0 0, Event.tick "b" 0 0 0]) ∧
    (run ⟨none, [], 0⟩ [Event.tick "a" 0 0 0, Event.tick "b" 0 0 0]).realtimeData.length =
      min 20 [Event.tick "a" 0 0 0, Event.tick "b" 0 0 0].length ∧
    (run ⟨none, [], 0⟩ [Event.tick "a" 0 0 0, Event.tick "b" 0 0 0]).realtimeData.length ≤ 20 ∧
    (∀ (s' : DashState) (e : Event), s'.realtimeData.length ≤ 20 →
      (step s' e).realtimeData.length ≤ 20)) :=
  ⟨by decide, stream_buffer_window [Event.tick "a" 0 0 0, Event.tick "b" 0 0 0]
    ⟨none, [], 0⟩ (by decide) rfl⟩

theorem run_ticks_uploadData : ∀ (es : List Event) (s : DashState),
    (∀ e ∈ es, e.isTick = true) → (run s es).uploadData = s.uploadData
  | [], _, _ => rfl
  | .tick t r1 r2 r3 :: es, s, hticks => by
    have ih := run_ticks_uploadData es (step s (.tick t r1 r2 r3))
      (fun e he => hticks e (List.mem_cons_of_mem _ he))
    simpa [run, step] using ih
  | .upload d :: es, s, hticks => by
    have := hticks (.upload d) (List.mem_cons_self _ _)
    simp [Event.isTick] at this

/-- Over a trace of ticks with real data active, the playback index counts
the ticks. -/
theorem run_ticks_index : ∀ (es : List Event) (s : DashState),
    (∀ e ∈ es, e.isTick = true) → hasRealData s.uploadData = true →
    (run s es).playbackIndex = s.playbackIndex + es.length
  | [], _, _, _ => rfl
  | .tick t r1 r2 r3 :: es, s, hticks, hreal => by
    have hstep : (step s (.tick t r1 r2 r3)).playbackIndex =
        s.playbackIndex + 1 := by
      simp [step, hreal]
    have hreal' : hasRealData (step s (.tick t r1 r2 r3)).uploadData = true := by
      simpa [step] using hreal
    have ih := run_ticks_index es (step s (.tick t r1 r2 r3))
      (fun e he => hticks e (List.mem_cons_of_mem _ he)) hreal'
    simp only [run, List.foldl_cons] at ih ⊢
    rw [ih, hstep, List.length_cons]
    omega
  | .upload d :: es, s, hticks, _ => by
    have := hticks (.upload d) (List.mem_cons_self _ _)
    simp [Event.isTick] at this

/-- C2: with a dataset of `N ≥ 1` records active, the playback index
advances by one exactly on ticks that consume a real record (fallback ticks
leave it unchanged), and the sample selection wraps modulo `N`: after
`N + k` real ticks following an upload, the index used for the next sample
is `k % N` (in particular `0` after exactly `N` ticks). -/
theorem playback_index_wraps (s : DashState) (d : UploadData)
    (es : List Event) (hticks : ∀ e ∈ es, e.isTick = true)
    (hN : 0 < d.equipment_data.length) :
    (run (step s (.upload d)) es).playbackIndex = es.length ∧
    (∀ k, es.length = d.equipment_data.length + k →
      (run (step s (.upload d)) es).playbackIndex % d.equipment_data.length =
        k % d.equipment_data.length) ∧
    (es.length = d.equipment_data.length →
      (run (step s (.upload d)) es).playbackIndex % d.equipment_data.length = 0) ∧
    (∀ (s' : DashState) (t : String) (r1 r2 r3 : ℚ),
      hasRealData s'.uploadData = true →
      (step s' (.tick t r1 r2 r3)).playbackIndex = s'.playbackIndex + 1) ∧
    (∀ (s' : DashState) (t : String) (r1 r2 r3 : ℚ),
      hasRealData s'.uploadData = false →
      (step s' (.tick t r1 r2 r3)).playbackIndex = s'.playbackIndex) := by
  have hreal : hasRealData (step s (.upload d)).uploadData = true := by
    simp [step, hasRealData, hN]
  have hidx := run_ticks_index es (step s (.upload d)) hticks hreal
  have hzero : (step s (.upload d)).playbackIndex = 0 := rfl
  rw [hzero, Nat.zero_add] at hidx
  refine ⟨hidx, ?_, ?_, ?_, ?_⟩
  · intro k hk
    rw [hidx, hk, Nat.add_mod_left]
  · intro hk
    rw [hidx, hk, Nat.mod_self]
  · intro s' t r1 r2 r3 h
    simp [step, h]
  · intro s' t r1 r2 r3 h
    simp [step, h]

/-- Closed instance of `playback_index_wraps`: a two-record dataset, three
ticks after the upload, index used next is `1 % 2`. -/
theorem playback_index_wraps_witness :
    (∀ e ∈ [Event.tick "a" 0 0 0, Event.tick "b" 0 0 0, Event.tick "c" 0 0 0],
      e.isTick = true) ∧
    0 < (UploadData.mk 1 [default, default] 2 none none none []).equipment_data.length ∧
    (run (step ⟨none, [], 0⟩
        (.upload (UploadData.mk 1 [default, default] 2 none none none [])))
      [Event.tick "a" 0 0 0, Event.tick "b" 0 0 0, Event.tick "c" 0 0 0]).playbackIndex %
      (UploadData.mk 1 [default, default] 2 none none none []).equipment_data.length =
      1 % (UploadData.mk 1 [default, default] 2 none none none []).equipment_data.length :=
  ⟨by decide, by decide,
    (playback_index_wraps ⟨none, [], 0⟩
      (UploadData.mk 1 [default, default] 2 none none none [])
      [Event.tick "a" 0 0 0, Event.tick "b" 0 0 0, Event.tick "c" 0 0 0]
      (by decide) (by decide)).2.1 1 (by decide)⟩

/-- C6: replacing the dataset empties the stream buffer and resets the
playback index to 0 in the same step, the resulting state does not depend
on the prior state (so no later tick can observe the old buffer or index),
and the first tick after the replacement sees exactly the one fresh
sample. -/
theorem upload_resets (s s' : DashState) (d : UploadData) :
    (step s (.upload d)).realtimeData = [] ∧
    (step s (.upload d)).playbackIndex = 0 ∧
    (step s (.upload d)).uploadData = some d ∧
    step s (.upload d) = step s' (.upload d) ∧
    (∀ (t : String) (r1 r2 r3 : ℚ),
      (step (step s (.upload d)) (.tick t r1 r2 r3)).realtimeData =
        [tickPoint (step s (.upload d)) t r1 r2 r3]) := by
  refine ⟨rfl, rfl, rfl, rfl, ?_⟩
  intro t r1 r2 r3
  simp [step, pushPoint]

theorem sortByHealth_sorted (l : List EquipmentRecord) :
    List.Sorted healthLe (sortByHealth l) :=
  List.sorted_insertionSort healthLe l

theorem sortByHealth_perm (l : List EquipmentRecord) :
    (sortByHealth l).Perm l :=
  List.perm_insertionSort healthLe l

theorem sortByHealth_idem (l : List EquipmentRecord) :
    sortByHealth (sortByHealth l) = sortByHealth l :=
  (sortByHealth_sorted l).insertionSort_eq

/-- Inserting a record into a list preserves, for every health score `q`,
the subsequence of records having that score: skipped records have a
strictly smaller score. -/
theorem filter_health_orderedInsert (q : ℚ) (a : EquipmentRecord) :
    ∀ l : List EquipmentRecord,
      (List.orderedInsert healthLe a l).filter
          (fun e => decide (e.health_score = q)) =
        ((a :: l).filter (fun e => decide (e.health_score = q)))
  | [] => by simp [List.orderedInsert]
  | b :: l => by
    by_cases hab : healthLe a b
    · simp [List.orderedInsert, hab]
    · have hb : b.health_score < a.health_score := by
        simpa [healthLe, not_le] using hab
      have ih := filter_health_orderedInsert q a l
      simp only [List.orderedInsert, if_neg hab]
      by_cases haq : a.health_score = q
      · have hbq : ¬b.health_score = q := by
          rw [← haq]; exact ne_of_lt hb
        simp [List.filter_cons, hbq, haq, ih]
      · simp [List.filter_cons, haq, ih]

/-- The watchlist sort is stable: records with equal health score keep
their original relative order. -/
theorem filter_health_sortByHealth (q : ℚ) : ∀ l : List EquipmentRecord,
    (sortByHealth l).filter (fun e => decide (e.health_score = q)) =
      l.filter (fun e => decide (e.health_score = q))
  | [] => rfl
  | a :: l => by
    have ih := filter_health_sortByHealth q l
    simp only [sortByHealth, List.insertionSort] at ih ⊢
    rw [filter_health_orderedInsert q a (List.insertionSort healthLe l),
      List.filter_cons, List.filter_cons, ih]

/-- C5: the watchlist consists of the first 5 records of the stable
ascending sort of `equipment_data` by health score — a sorted permutation
of the input with ties kept in original order — with names taken from the
same sorted records; an entry is flagged with the critical (red) color
exactly when its health score is below 50.  On health scores
`[10, 90, 5, 50, 99, 30]` the data is `[5, 10, 30, 50, 90]` with the
matching names. -/
theorem watchlist_lowest_five :
    (∀ l : List EquipmentRecord, List.Sorted healthLe (sortByHealth l)) ∧
    (∀ l : List EquipmentRecord, (sortByHealth l).Perm l) ∧
    (∀ (l : List EquipmentRecord) (q : ℚ),
      (sortByHealth l).filter (fun e => decide (e.health_score = q)) =
        l.filter (fun e => decide (e.health_score = q))) ∧
    (∀ l : List EquipmentRecord,
      (overviewWatchlist l).1.1 =
        ((sortByHealth l).take 5).map (fun e => e.name) ∧
      (overviewWatchlist l).1.2.1 =
        ((sortByHealth l).take 5).map (fun e => e.health_score) ∧
      (overviewWatchlist l).1.2.2 =
        ((sortByHealth l).take 5).map watchColor ∧
      (overviewWatchlist l).1.1.length = min 5 l.length) ∧
    (∀ e : EquipmentRecord,
      watchColor e = "rgba(239, 68, 68, 0.7)" ↔ e.health_score < 50) ∧
    ((overviewWatchlist demoRecords).1.2.1 = [5, 10, 30, 50, 90] ∧
      (overviewWatchlist demoRecords).1.1 = ["P3", "P1", "P6", "P4", "P2"]) := by
  refine ⟨sortByHealth_sorted, sortByHealth_perm,
    fun l q => filter_health_sortByHealth q l, ?_, ?_, by decide, by decide⟩
  · intro l
    have hidem := sortByHealth_idem l
    refine ⟨rfl, ?_, ?_, ?_⟩
    · simp [overviewWatchlist, hidem]
    · simp [overviewWatchlist, hidem]
    · simp only [overviewWatchlist, List.length_map, List.length_take,
        List.length_insertionSort, sortByHealth]
  · intro e
    by_cases h : e.health_score < 50
    · simp [watchColor, h]
    · constructor
      · intro hc
        exfalso
        rw [watchColor, if_neg h] at hc
        exact absurd hc (by decide)
      · intro hc
        exact absurd hc h

/-- C3 (code bug): rendering the watchlist mutates the active dataset —
`Array.prototype.sort` sorts `equipment_data` in place, so after the view
is computed the sequence is sorted ascending by health score instead of
keeping its original order.  Concretely: for records A (health 90) and
B (health 10), the post-state is `[B, A]`, not the original `[A, B]`. -/
theorem watchlist_mutates_input :
    (overviewWatchlist
        [⟨"A", "Pump", 1, 2, 3, 90⟩, ⟨"B", "Pump", 1, 2, 3, 10⟩]).2 =
      [⟨"B", "Pump", 1, 2, 3, 10⟩, ⟨"A", "Pump", 1, 2, 3, 90⟩] ∧
    (overviewWatchlist
        [⟨"A", "Pump", 1, 2, 3, 90⟩, ⟨"B", "Pump", 1, 2, 3, 10⟩]).2 ≠
      [⟨"A", "Pump", 1, 2, 3, 90⟩, ⟨"B", "Pump", 1, 2, 3, 10⟩] :=
  ⟨by decide, by decide⟩

/-- C4 counterexample: the claim says the value of the `error` field is
surfaced whenever parsing succeeds, the generic message appearing only
when the field is absent; but for the present-yet-falsy field
`{"error": ""}` the code surfaces the generic message, not the empty
field value. -/
theorem report_error_field_falsy :
    classifyReport 7 "application/json" 17
        (some (.obj [("error", .str "")])) =
      [.alert "Report Error: Generation failed on server."] ∧
    jsGet (.obj [("error", .str "")]) "error" = some (.str "") ∧
    ("Report Error: Generation failed on server." : String) ≠ "Report Error: " :=
  ⟨by decide, rfl, by decide⟩

/-- C4 amended: when the declared content type is JSON or the payload size
is below 500 bytes, the payload is parsed; parse success alerts
`Report Error: <message>` — the `error` field's value when it is truthy,
the generic failure message when it is absent or falsy — and saves no
file; parse failure triggers the file save
`Analysis_Report_#<id>.pdf`; otherwise the payload is saved directly. -/
theorem report_classification (id : Nat) (ct : String) (size : Nat)
    (parsed : Option Json) :
    (ct = "application/json" ∨ size < 500 →
      (∀ j, parsed = some j →
        classifyReport id ct size parsed =
          [.alert ("Report Error: " ++ reportErrMsg j)] ∧
        ∀ fn, ReportAction.saveFile fn ∉ classifyReport id ct size parsed) ∧
      (parsed = none →
        classifyReport id ct size parsed = [.saveFile (reportFilename id)])) ∧
    (¬(ct = "application/json" ∨ size < 500) →
      classifyReport id ct size parsed = [.saveFile (reportFilename id)]) ∧
    (∀ j e, jsGet j "error" = some (.str e) → e ≠ "" → reportErrMsg j = e) ∧
    (∀ j, jsGet j "error" = none →
      reportErrMsg j = "Generation failed on server.") := by
  have hcond : (ct == "application/json" || decide (size < 500)) = true ↔
      (ct = "application/json" ∨ size < 500) := by
    simp [Bool.or_eq_true, beq_iff_eq, decide_eq_true_eq]
  refine ⟨?_, ?_, ?_, ?_⟩
  · intro h
    refine ⟨?_, ?_⟩
    · intro j hj
      subst hj
      unfold classifyReport
      rw [if_pos (hcond.mpr h)]
      exact ⟨rfl, by simp⟩
    · intro hp
      subst hp
      unfold classifyReport
      rw [if_pos (hcond.mpr h)]
  · intro h
    unfold classifyReport
    rw [if_neg (fun hc => h (hcond.mp hc))]
  · intro j e hj he
    unfold reportErrMsg
    rw [hj]
    simp [jsTruthy, jsDisplay, he]
  · intro j hj
    unfold reportErrMsg
    rw [hj]

/-- Closed instance of `report_classification`: a JSON error body with a
truthy field surfaces `Report Error: failed` and saves nothing. -/
theorem report_classification_witness :
    (("application/json" : String) = "application/json" ∨ (600 : Nat) < 500) ∧
    classifyReport 3 "application/json" 600
        (some (.obj [("error", .str "failed")])) =
      [.alert "Report Error: failed"] :=
  ⟨Or.inl rfl, by
    have h := ((report_classification 3 "application/json" 600
      (some (.obj [("error", .str "failed")]))).1 (Or.inl rfl)).1
      (.obj [("error", .str "failed")]) rfl
    exact h.1.trans (by decide)⟩

/-- C7: deleting a dataset issues the delete request only after the user
confirms; a declined confirmation is a no-op besides the prompt itself; a
successful delete triggers the history re-fetch; a failed delete alerts
the user and leaves the stored list unchanged. -/
theorem delete_requires_confirmation (id : Nat)
    (confirmed deleteOk : Bool) (fetchResult : Option (List HistoryEntry))
    (history : List HistoryEntry) :
    (confirmed = false →
      handleDeleteDataset id confirmed deleteOk fetchResult history =
        (history, [.confirmPrompt (deleteConfirmMsg id)])) ∧
    (UiAction.deleteRequest id ∈
        (handleDeleteDataset id confirmed deleteOk fetchResult history).2 →
      confirmed = true) ∧
    (confirmed = true → deleteOk = true →
      UiAction.historyRequest ∈
        (handleDeleteDataset id confirmed deleteOk fetchResult history).2) ∧
    (confirmed = true → deleteOk = false →
      UiAction.alert "Failed to delete dataset. Please try again." ∈
          (handleDeleteDataset id confirmed deleteOk fetchResult history).2 ∧
        (handleDeleteDataset id confirmed deleteOk fetchResult history).1 =
          history) := by
  refine ⟨?_, ?_, ?_, ?_⟩
  · intro h
    subst h
    rfl
  · intro hmem
    cases confirmed with
    | true => rfl
    | false =>
      simp [handleDeleteDataset] at hmem
  · intro hc hd
    subst hc; subst hd
    cases fetchResult with
    | some res => simp [handleDeleteDataset, fetchHistory]
    | none => simp [handleDeleteDataset, fetchHistory]
  · intro hc hd
    subst hc; subst hd
    exact ⟨by simp [handleDeleteDataset], rfl⟩

/-- Closed instance of `delete_requires_confirmation`: a declined
confirmation leaves the history untouched and performs nothing beyond the
prompt. -/
theorem delete_requires_confirmation_witness :
    (false = false) ∧
    handleDeleteDataset 4 false true none [] =
      ([], [.confirmPrompt (deleteConfirmMsg 4)]) :=
  ⟨rfl, (delete_requires_confirmation 4 false true none []).1 rfl⟩

theorem sortHistory_sorted (history : List HistoryEntry) :
    List.Sorted histLe (sortHistory history) :=
  List.sorted_insertionSort histLe history

theorem sortHistory_perm (history : List HistoryEntry) :
    (sortHistory history).Perm history :=
  List.perm_insertionSort histLe history

/-- C8: the history-trend view of the ComparisonTab sorts the entries
ascending by upload date on a copy — the stored list is returned
unchanged — and emits one label per entry plus three series aligned by
index with the sorted order; an empty history yields the explicit
empty-state card rather than an error. -/
theorem history_trend_sorted (dateLabel : Nat → String)
    (history : List HistoryEntry) :
    (comparisonTab dateLabel []).1 =
      .emptyState "No history data available for comparison. Upload more datasets to see trends." ∧
    (comparisonTab dateLabel history).2 = history ∧
    List.Sorted histLe (sortHistory history) ∧
    (sortHistory history).Perm history ∧
    (history ≠ [] →
      (comparisonTab dateLabel history).1 =
        .charts ((sortHistory history).map (fun h => dateLabel h.uploaded_at))
          ((sortHistory history).map (fun h => h.avg_health_score))
          ((sortHistory history).map (fun h => h.avg_flowrate))
          ((sortHistory history).map (fun h => h.avg_pressure)) ∧
      ((sortHistory history).map
        (fun h => dateLabel h.uploaded_at)).length = history.length) := by
  refine ⟨rfl, ?_, sortHistory_sorted history, sortHistory_perm history, ?_⟩
  · unfold comparisonTab
    by_cases h : history.length = 0
    · rw [if_pos h]
    · rw [if_neg h]
  · intro hne
    have hlen : ¬history.length = 0 := by
      simpa [List.length_eq_zero] using hne
    constructor
    · unfold comparisonTab
      rw [if_neg hlen]
    · rw [List.length_map]
      exact (sortHistory_perm history).length_eq

/-- Closed instance of `history_trend_sorted`: on the unsorted two-entry
history with upload dates 2024-03-01 and 2024-01-01, the 2024-01-01 entry
comes first in the labels and in every series. -/
theorem history_trend_sorted_witness :
    ([(⟨1, 20240301, 5, 70, 11, 21⟩ : HistoryEntry),
      ⟨2, 20240101, 6, 60, 12, 22⟩] ≠ ([] : List HistoryEntry)) ∧
    (comparisonTab (fun n => toString n)
        [⟨1, 20240301, 5, 70, 11, 21⟩, ⟨2, 20240101, 6, 60, 12, 22⟩]).1 =
      .charts ["20240101", "20240301"] [60, 70] [12, 11] [22, 21] :=
  ⟨by decide, by
    have h := ((history_trend_sorted (fun n => toString n)
      [⟨1, 20240301, 5, 70, 11, 21⟩, ⟨2, 20240101, 6, 60, 12, 22⟩]).2.2.2.2
      (by decide)).1
    exact h.trans (by decide)⟩

theorem tab_reachable_mem : ∀ (es : List TabEvent) (cur : String),
    cur ∈ tabIds → es.foldl tabStep cur ∈ tabIds
  | [], _, h => h
  | e :: es, cur, h => by
    rw [List.foldl_cons]
    apply tab_reachable_mem es
    cases e with
    | clickTab i => exact List.get_mem _ _ _
    | clickViewHistory =>
      show "history" ∈ tabIds
      decide

/-- C9: every dashboard state reachable by user tab selection from the
initial `'overview'` state has `activeTab` among the four rendered tabs;
in particular it is never `'realtime'`, so the guard of the playback
interval is false for every reachable state whatever `isSimulating` is. -/
theorem realtime_tab_unreachable (es : List TabEvent) (sim : Bool) :
    tabRun es ∈ tabIds ∧
    tabRun es ≠ "realtime" ∧
    simGuard (tabRun es) sim = false := by
  have hmem : tabRun es ∈ tabIds := tab_reachable_mem es "overview" (by decide)
  refine ⟨hmem, ?_, ?_⟩
  · intro hrt
    rw [hrt] at hmem
    revert hmem
    decide
  · unfold simGuard
    have hne : (tabRun es == "realtime") = false := by
      simp only [tabIds, List.mem_cons, List.not_mem_nil, or_false] at hmem
      rcases hmem with h | h | h | h <;> rw [h] <;> decide
    rw [hne, Bool.false_and]

/-- C10: when `avg_health_score` is 0 or absent, the System Health card
shows the falsy fallback `85%` while the color still comes from the raw
`avg_health_score < 70` comparison (red at 0, emerald when absent); when
the field is present and nonzero, the shown value is the score rounded to
an integer, followed by `%`. -/
theorem system_health_fallback (avg : Option ℚ) :
    (avg = none ∨ avg = some 0 → systemHealthValue avg = "85%") ∧
    (∀ q : ℚ, ¬q = 0 →
      systemHealthValue (some q) = toString (jsToFixed0 q) ++ "%") ∧
    (∀ q : ℚ, systemHealthColor (some q) =
      if q < 70 then "red" else "emerald") ∧
    systemHealthColor (some 0) = "red" ∧
    systemHealthColor none = "emerald" := by
  refine ⟨?_, ?_, fun q => rfl, by decide, rfl⟩
  · rintro (h | h) <;> subst h <;> decide
  · intro q hq
    show toString (jsToFixed0 (if q = 0 then 85 else q)) ++ "%" =
      toString (jsToFixed0 q) ++ "%"
    rw [if_neg hq]

/-- Closed instance of `system_health_fallback`: a present-but-zero score
shows `85%` yet is colored red, and a nonzero score 72 shows the rounded
value followed by the percent sign. -/
theorem system_health_fallback_witness :
    (some (0 : ℚ) = none ∨ some (0 : ℚ) = some 0) ∧
    systemHealthValue (some 0) = "85%" ∧
    (¬(72 : ℚ) = 0) ∧
    systemHealthValue (some 72) = toString (jsToFixed0 72) ++ "%" :=
  ⟨Or.inr rfl, (system_health_fallback (some 0)).1 (Or.inr rfl),
    by decide, (system_health_fallback (some 72)).2.1 72 (by decide)⟩
